import Mathlib

/-!
Verification of sonic_platform_base/module_base.py (ModuleBase).

Python lists are mutable heap objects; a `ModuleBase` instance holds five
references to such objects.  We model the heap explicitly so that object
identity ("the same backing sequence") is expressible: a `Ref` is the identity
of a list object and a `Heap` maps each identity to the list's current
contents.  Every method of `ModuleBase` is translated as a function taking the
heap and the instance and returning a `MethodResult`: the returned value, the
heap and instance after the call, and the lines written to sys.stderr during
the call.  Methods whose Python body is `raise NotImplementedError` return
`Except.error PyErr.notImplementedError`.
-/

deriving instance DecidableEq for Except

namespace SonicPlatform

/-- Python exceptions that appear in module_base.py. -/
inductive PyErr where
  | notImplementedError
  | indexError
  deriving DecidableEq

/-- The identity of a Python list object on the heap. -/
abbrev Ref := Nat

/-- A heap of Python list objects: cell `r` holds the current contents of the
list object whose identity is `r`. -/
structure Heap (α : Type) where
  cells : List (List α)
  deriving DecidableEq

/-- Dereference a list object. -/
def Heap.read (σ : Heap α) (r : Ref) : List α :=
  (σ.cells.get? r).getD []

/-- Mutate a list object in place (e.g. the owning implementation appending
sub-devices). -/
def Heap.write (σ : Heap α) (r : Ref) (l : List α) : Heap α :=
  ⟨σ.cells.set r l⟩

/-- Python list subscription `l[i]` with an int index, as CPython evaluates
it: a negative index is first shifted by `len(l)`; the result is the element
when the shifted index lands in range and `none` (an IndexError) otherwise. -/
def pyListGet (l : List α) (i : Int) : Option α :=
  let j : Int := if i < 0 then i + l.length else i
  if 0 ≤ j then l.get? j.toNat else none

/-- A ModuleBase instance: five references to the list objects holding the
sub-devices of the module (self._component_list, self._fan_list,
self._psu_list, self._thermal_list, self._sfp_list). -/
structure ModuleBase where
  _component_list : Ref
  _fan_list : Ref
  _psu_list : Ref
  _thermal_list : Ref
  _sfp_list : Ref
  deriving DecidableEq

/-- The outcome of calling a method: the returned value, the heap and the
instance after the call, and the strings written to sys.stderr during it. -/
structure MethodResult (α : Type) (β : Type) where
  ret : β
  heap : Heap α
  mod : ModuleBase
  stderr : List String
  deriving DecidableEq

namespace ModuleBase

/-- Device type definition. Note, this is a constant. -/
def DEVICE_TYPE : String := "module"

/-- Possible card type: supervisor. -/
def MODULE_TYPE_SUPERVISOR : String := "SUPERVISOR"
/-- Possible card type: line card. -/
def MODULE_TYPE_LINE : String := "LINE-CARD"
/-- Possible card type: fabric card. -/
def MODULE_TYPE_FABRIC : String := "FABRIC-CARD"

/-- Module state is Empty if no module is inserted in the slot. -/
def MODULE_STATUS_EMPTY : String := "Empty"
/-- Module state is Offline if powered down. -/
def MODULE_STATUS_OFFLINE : String := "Offline"
/-- Module state is Present when it is powered up, but not fully functional. -/
def MODULE_STATUS_PRESENT : String := "Present"
/-- Module state is Fault when powered up but in a fault state. -/
def MODULE_STATUS_FAULT : String := "Fault"
/-- Module state is Online when fully operational. -/
def MODULE_STATUS_ONLINE : String := "Online"

/-- `__init__`: allocates five fresh empty list objects on the heap and
stores their identities in the new instance. -/
def init (σ : Heap α) : Heap α × ModuleBase :=
  let n := σ.cells.length
  (⟨σ.cells ++ [[], [], [], [], []]⟩,
   { _component_list := n
     _fan_list := n + 1
     _psu_list := n + 2
     _thermal_list := n + 3
     _sfp_list := n + 4 })

/-- `get_base_mac`: the body is `raise NotImplementedError`. -/
def get_base_mac (σ : Heap α) (m : ModuleBase) : MethodResult α (Except PyErr String) :=
  ⟨.error .notImplementedError, σ, m, []⟩

/-- `get_system_eeprom_info`: the body is `raise NotImplementedError`. -/
def get_system_eeprom_info (σ : Heap α) (m : ModuleBase) :
    MethodResult α (Except PyErr (List (String × String))) :=
  ⟨.error .notImplementedError, σ, m, []⟩

/-- `get_name`: the body is `raise NotImplementedError`. -/
def get_name (σ : Heap α) (m : ModuleBase) : MethodResult α (Except PyErr String) :=
  ⟨.error .notImplementedError, σ, m, []⟩

/-- `get_description`: the body is `raise NotImplementedError`. -/
def get_description (σ : Heap α) (m : ModuleBase) : MethodResult α (Except PyErr String) :=
  ⟨.error .notImplementedError, σ, m, []⟩

/-- `get_slot`: the body is `raise NotImplementedError`. -/
def get_slot (σ : Heap α) (m : ModuleBase) : MethodResult α (Except PyErr Int) :=
  ⟨.error .notImplementedError, σ, m, []⟩

/-- `get_type`: the body is `raise NotImplementedError`. -/
def get_type (σ : Heap α) (m : ModuleBase) : MethodResult α (Except PyErr String) :=
  ⟨.error .notImplementedError, σ, m, []⟩

/-- `get_status`: the body is `raise NotImplementedError`. -/
def get_status (σ : Heap α) (m : ModuleBase) : MethodResult α (Except PyErr String) :=
  ⟨.error .notImplementedError, σ, m, []⟩

/-- `reboot`: the body is `raise NotImplementedError`. -/
def reboot (σ : Heap α) (m : ModuleBase) : MethodResult α (Except PyErr Bool) :=
  ⟨.error .notImplementedError, σ, m, []⟩

/-- `set_admin_state(up)`: the body is `raise NotImplementedError`. -/
def set_admin_state (σ : Heap α) (m : ModuleBase) (up : Bool) :
    MethodResult α (Except PyErr Bool) :=
  ⟨.error .notImplementedError, σ, m, []⟩

/-- `get_change_event(timeout=0)`: the body is `raise NotImplementedError`.
The documented return shape is a pair of a bool and a nested mapping from
device type to device id to event code. -/
def get_change_event (σ : Heap α) (m : ModuleBase) (timeout : Int) :
    MethodResult α (Except PyErr (Bool × List (String × List (String × String)))) :=
  ⟨.error .notImplementedError, σ, m, []⟩

/-- `get_num_components`: `return len(self._component_list)`. -/
def get_num_components (σ : Heap α) (m : ModuleBase) : MethodResult α Nat :=
  ⟨(σ.read m._component_list).length, σ, m, []⟩

/-- `get_all_components`: `return self._component_list` (the list object
itself, i.e. its identity). -/
def get_all_components (σ : Heap α) (m : ModuleBase) : MethodResult α Ref :=
  ⟨m._component_list, σ, m, []⟩

/-- `get_component(index)`: `component = None`, then
`component = self._component_list[index]` under a try; on IndexError a
diagnostic is written to sys.stderr and the unchanged `component` (None) is
returned. -/
def get_component (σ : Heap α) (m : ModuleBase) (index : Int) :
    MethodResult α (Except PyErr (Option α)) :=
  match pyListGet (σ.read m._component_list) index with
  | some c => ⟨.ok (some c), σ, m, []⟩
  | none =>
      ⟨.ok none, σ, m,
       ["Component index " ++ toString index ++ " out of range (0-" ++
        toString (((σ.read m._component_list).length : Int) - 1) ++ ")\n"]⟩

/-- `get_num_fans`: `return len(self._fan_list)`. -/
def get_num_fans (σ : Heap α) (m : ModuleBase) : MethodResult α Nat :=
  ⟨(σ.read m._fan_list).length, σ, m, []⟩

/-- `get_all_fans`: `return self._fan_list`. -/
def get_all_fans (σ : Heap α) (m : ModuleBase) : MethodResult α Ref :=
  ⟨m._fan_list, σ, m, []⟩

/-- `get_fan(index)`: same shape as `get_component`, on `self._fan_list`
with the "Fan" diagnostic tag. -/
def get_fan (σ : Heap α) (m : ModuleBase) (index : Int) :
    MethodResult α (Except PyErr (Option α)) :=
  match pyListGet (σ.read m._fan_list) index with
  | some f => ⟨.ok (some f), σ, m, []⟩
  | none =>
      ⟨.ok none, σ, m,
       ["Fan index " ++ toString index ++ " out of range (0-" ++
        toString (((σ.read m._fan_list).length : Int) - 1) ++ ")\n"]⟩

/-- `get_num_psus`: `return len(self._psu_list)`. -/
def get_num_psus (σ : Heap α) (m : ModuleBase) : MethodResult α Nat :=
  ⟨(σ.read m._psu_list).length, σ, m, []⟩

/-- `get_all_psus`: `return self._psu_list`. -/
def get_all_psus (σ : Heap α) (m : ModuleBase) : MethodResult α Ref :=
  ⟨m._psu_list, σ, m, []⟩

/-- `get_psu(index)`: same shape as `get_component`, on `self._psu_list`
with the "PSU" diagnostic tag. -/
def get_psu (σ : Heap α) (m : ModuleBase) (index : Int) :
    MethodResult α (Except PyErr (Option α)) :=
  match pyListGet (σ.read m._psu_list) index with
  | some p => ⟨.ok (some p), σ, m, []⟩
  | none =>
      ⟨.ok none, σ, m,
       ["PSU index " ++ toString index ++ " out of range (0-" ++
        toString (((σ.read m._psu_list).length : Int) - 1) ++ ")\n"]⟩

/-- `get_num_thermals`: `return len(self._thermal_list)`. -/
def get_num_thermals (σ : Heap α) (m : ModuleBase) : MethodResult α Nat :=
  ⟨(σ.read m._thermal_list).length, σ, m, []⟩

/-- `get_all_thermals`: `return self._thermal_list`. -/
def get_all_thermals (σ : Heap α) (m : ModuleBase) : MethodResult α Ref :=
  ⟨m._thermal_list, σ, m, []⟩

/-- `get_thermal(index)`: same shape as `get_component`, on
`self._thermal_list` with the "THERMAL" diagnostic tag. -/
def get_thermal (σ : Heap α) (m : ModuleBase) (index : Int) :
    MethodResult α (Except PyErr (Option α)) :=
  match pyListGet (σ.read m._thermal_list) index with
  | some t => ⟨.ok (some t), σ, m, []⟩
  | none =>
      ⟨.ok none, σ, m,
       ["THERMAL index " ++ toString index ++ " out of range (0-" ++
        toString (((σ.read m._thermal_list).length : Int) - 1) ++ ")\n"]⟩

/-- `get_num_sfps`: `return len(self._sfp_list)`. -/
def get_num_sfps (σ : Heap α) (m : ModuleBase) : MethodResult α Nat :=
  ⟨(σ.read m._sfp_list).length, σ, m, []⟩

/-- `get_all_sfps`: `return self._sfp_list`. -/
def get_all_sfps (σ : Heap α) (m : ModuleBase) : MethodResult α Ref :=
  ⟨m._sfp_list, σ, m, []⟩

/-- `get_sfp(index)`: same shape as `get_component`, on `self._sfp_list`
with the "SFP" diagnostic tag. -/
def get_sfp (σ : Heap α) (m : ModuleBase) (index : Int) :
    MethodResult α (Except PyErr (Option α)) :=
  match pyListGet (σ.read m._sfp_list) index with
  | some s => ⟨.ok (some s), σ, m, []⟩
  | none =>
      ⟨.ok none, σ, m,
       ["SFP index " ++ toString index ++ " out of range (0-" ++
        toString (((σ.read m._sfp_list).length : Int) - 1) ++ ")\n"]⟩

end ModuleBase

/-- A concrete example heap used by witnesses and counterexamples: list
objects 0..4 hold the component, fan, psu, thermal and sfp collections of
the example module. -/
def exHeap : Heap Nat :=
  ⟨[[10, 11, 12], [20, 21, 22], [30, 31], [40], [50, 51, 52]]⟩

/-- A concrete example module whose five collection references point at the
five list objects of `exHeap`. -/
def exMod : ModuleBase :=
  { _component_list := 0, _fan_list := 1, _psu_list := 2
    _thermal_list := 3, _sfp_list := 4 }

/-! Helper lemmas about Python list subscription and the heap. -/

/-- A nonnegative Python index is plain zero-based lookup. -/
theorem pyListGet_of_nonneg (l : List α) (i : Int) (h : 0 ≤ i) :
    pyListGet l i = l.get? i.toNat := by
  have h1 : ¬ i < 0 := by omega
  simp [pyListGet, h, h1]

/-- An index below `-len` or at/above `len` raises IndexError. -/
theorem pyListGet_eq_none (l : List α) (i : Int)
    (h : i < -(l.length : Int) ∨ (l.length : Int) ≤ i) :
    pyListGet l i = none := by
  rcases h with h | h
  · have h0 : i < 0 := by omega
    have h1 : ¬ (0 : Int) ≤ i + l.length := by omega
    simp [pyListGet, h0, h1]
  · have h0 : ¬ i < 0 := by omega
    have h1 : (0 : Int) ≤ i := by omega
    simp [pyListGet, h0, h1, List.get?_eq_none]
    omega

/-- A negative Python index `-k` with `1 ≤ k ≤ len` reaches position `len - k`. -/
theorem pyListGet_neg (l : List α) (k : Nat) (h1 : 1 ≤ k) (h2 : k ≤ l.length) :
    pyListGet l (-(k : Int)) = l.get? (l.length - k) := by
  have h0 : (-(k : Int)) < 0 := by omega
  have h3 : (0 : Int) ≤ -(k : Int) + l.length := by omega
  have h4 : ((-(k : Int)) + (l.length : Int)).toNat = l.length - k := by omega
  simp [pyListGet, h0, h3, h4]

/-- In-bounds zero-based lookup yields an element. -/
theorem get?_isSome_of_lt (l : List α) (n : Nat) (h : n < l.length) :
    (l.get? n).isSome := by
  rw [List.get?_eq_get h]; rfl

/-- Lookup just past an appended prefix lands in the suffix. -/
theorem get?_append_add (l L : List β) (j : Nat) :
    (l ++ L).get? (l.length + j) = L.get? j := by
  induction l with
  | nil => simp
  | cons a t ih =>
    simp only [List.cons_append, List.length_cons]
    rw [show t.length + 1 + j = (t.length + j) + 1 by omega]
    exact ih

/-- Writing a valid list object and reading it back through the same
reference recovers the written contents. -/
theorem Heap.read_write_self (σ : Heap α) (r : Ref) (l' : List α)
    (h : r < σ.cells.length) : (σ.write r l').read r = l' := by
  simp [Heap.write, Heap.read, List.getElem?_set_eq_of_lt _ h]

/-- Reading the freshly allocated component list of `init` gives the empty
list. -/
theorem init_read_component (σ : Heap α) :
    (ModuleBase.init σ).1.read (ModuleBase.init σ).2._component_list = [] := by
  have h := get?_append_add σ.cells ([[], [], [], [], []] : List (List α)) 0
  show ((σ.cells ++ [[], [], [], [], []]).get? (σ.cells.length + 0)).getD [] = []
  rw [h]
  rfl

/-- Reading the freshly allocated fan list of `init` gives the empty list. -/
theorem init_read_fan (σ : Heap α) :
    (ModuleBase.init σ).1.read (ModuleBase.init σ).2._fan_list = [] := by
  have h := get?_append_add σ.cells ([[], [], [], [], []] : List (List α)) 1
  show ((σ.cells ++ [[], [], [], [], []]).get? (σ.cells.length + 1)).getD [] = []
  rw [h]
  rfl

/-- Reading the freshly allocated psu list of `init` gives the empty list. -/
theorem init_read_psu (σ : Heap α) :
    (ModuleBase.init σ).1.read (ModuleBase.init σ).2._psu_list = [] := by
  have h := get?_append_add σ.cells ([[], [], [], [], []] : List (List α)) 2
  show ((σ.cells ++ [[], [], [], [], []]).get? (σ.cells.length + 2)).getD [] = []
  rw [h]
  rfl

/-- Reading the freshly allocated thermal list of `init` gives the empty
list. -/
theorem init_read_thermal (σ : Heap α) :
    (ModuleBase.init σ).1.read (ModuleBase.init σ).2._thermal_list = [] := by
  have h := get?_append_add σ.cells ([[], [], [], [], []] : List (List α)) 3
  show ((σ.cells ++ [[], [], [], [], []]).get? (σ.cells.length + 3)).getD [] = []
  rw [h]
  rfl

/-- Reading the freshly allocated sfp list of `init` gives the empty list. -/
theorem init_read_sfp (σ : Heap α) :
    (ModuleBase.init σ).1.read (ModuleBase.init σ).2._sfp_list = [] := by
  have h := get?_append_add σ.cells ([[], [], [], [], []] : List (List α)) 4
  show ((σ.cells ++ [[], [], [], [], []]).get? (σ.cells.length + 4)).getD [] = []
  rw [h]
  rfl

/-- `get_component` leaves the heap and the instance unchanged. -/
theorem get_component_frame (σ : Heap α) (m : ModuleBase) (i : Int) :
    (ModuleBase.get_component σ m i).heap = σ ∧
    (ModuleBase.get_component σ m i).mod = m := by
  cases h : pyListGet (σ.read m._component_list) i <;>
    simp [ModuleBase.get_component, h]

/-- `get_fan` leaves the heap and the instance unchanged. -/
theorem get_fan_frame (σ : Heap α) (m : ModuleBase) (i : Int) :
    (ModuleBase.get_fan σ m i).heap = σ ∧ (ModuleBase.get_fan σ m i).mod = m := by
  cases h : pyListGet (σ.read m._fan_list) i <;> simp [ModuleBase.get_fan, h]

/-- `get_psu` leaves the heap and the instance unchanged. -/
theorem get_psu_frame (σ : Heap α) (m : ModuleBase) (i : Int) :
    (ModuleBase.get_psu σ m i).heap = σ ∧ (ModuleBase.get_psu σ m i).mod = m := by
  cases h : pyListGet (σ.read m._psu_list) i <;> simp [ModuleBase.get_psu, h]

/-- `get_thermal` leaves the heap and the instance unchanged. -/
theorem get_thermal_frame (σ : Heap α) (m : ModuleBase) (i : Int) :
    (ModuleBase.get_thermal σ m i).heap = σ ∧
    (ModuleBase.get_thermal σ m i).mod = m := by
  cases h : pyListGet (σ.read m._thermal_list) i <;>
    simp [ModuleBase.get_thermal, h]

/-- `get_sfp` leaves the heap and the instance unchanged. -/
theorem get_sfp_frame (σ : Heap α) (m : ModuleBase) (i : Int) :
    (ModuleBase.get_sfp σ m i).heap = σ ∧ (ModuleBase.get_sfp σ m i).mod = m := by
  cases h : pyListGet (σ.read m._sfp_list) i <;> simp [ModuleBase.get_sfp, h]

/-- C2: every identity/lifecycle operation of the unmodified base contract
(get_base_mac, get_system_eeprom_info, get_name, get_description, get_slot,
get_type, get_status, reboot, set_admin_state for every boolean, and
get_change_event for every integer timeout) raises NotImplementedError and
leaves the heap and the instance unchanged. -/
theorem C2_base_methods_not_implemented {α : Type} (σ : Heap α) (m : ModuleBase)
    (up : Bool) (timeout : Int) :
    ((ModuleBase.get_base_mac σ m).ret = .error .notImplementedError ∧
      (ModuleBase.get_base_mac σ m).heap = σ ∧ (ModuleBase.get_base_mac σ m).mod = m) ∧
    ((ModuleBase.get_system_eeprom_info σ m).ret = .error .notImplementedError ∧
      (ModuleBase.get_system_eeprom_info σ m).heap = σ ∧
      (ModuleBase.get_system_eeprom_info σ m).mod = m) ∧
    ((ModuleBase.get_name σ m).ret = .error .notImplementedError ∧
      (ModuleBase.get_name σ m).heap = σ ∧ (ModuleBase.get_name σ m).mod = m) ∧
    ((ModuleBase.get_description σ m).ret = .error .notImplementedError ∧
      (ModuleBase.get_description σ m).heap = σ ∧
      (ModuleBase.get_description σ m).mod = m) ∧
    ((ModuleBase.get_slot σ m).ret = .error .notImplementedError ∧
      (ModuleBase.get_slot σ m).heap = σ ∧ (ModuleBase.get_slot σ m).mod = m) ∧
    ((ModuleBase.get_type σ m).ret = .error .notImplementedError ∧
      (ModuleBase.get_type σ m).heap = σ ∧ (ModuleBase.get_type σ m).mod = m) ∧
    ((ModuleBase.get_status σ m).ret = .error .notImplementedError ∧
      (ModuleBase.get_status σ m).heap = σ ∧ (ModuleBase.get_status σ m).mod = m) ∧
    ((ModuleBase.reboot σ m).ret = .error .notImplementedError ∧
      (ModuleBase.reboot σ m).heap = σ ∧ (ModuleBase.reboot σ m).mod = m) ∧
    ((ModuleBase.set_admin_state σ m up).ret = .error .notImplementedError ∧
      (ModuleBase.set_admin_state σ m up).heap = σ ∧
      (ModuleBase.set_admin_state σ m up).mod = m) ∧
    ((ModuleBase.get_change_event σ m timeout).ret = .error .notImplementedError ∧
      (ModuleBase.get_change_event σ m timeout).heap = σ ∧
      (ModuleBase.get_change_event σ m timeout).mod = m) :=
  ⟨⟨rfl, rfl, rfl⟩, ⟨rfl, rfl, rfl⟩, ⟨rfl, rfl, rfl⟩, ⟨rfl, rfl, rfl⟩,
   ⟨rfl, rfl, rfl⟩, ⟨rfl, rfl, rfl⟩, ⟨rfl, rfl, rfl⟩, ⟨rfl, rfl, rfl⟩,
   ⟨rfl, rfl, rfl⟩, ⟨rfl, rfl, rfl⟩⟩

/-- C5: immediately after construction (before any registration), all five
sub-device counts are 0 and all five collections read back as the empty
sequence. -/
theorem C5_fresh_module_collections_empty {α : Type} (σ : Heap α) :
    ((ModuleBase.get_num_components (ModuleBase.init σ).1 (ModuleBase.init σ).2).ret = 0 ∧
      (ModuleBase.init σ).1.read
        (ModuleBase.get_all_components (ModuleBase.init σ).1 (ModuleBase.init σ).2).ret = []) ∧
    ((ModuleBase.get_num_fans (ModuleBase.init σ).1 (ModuleBase.init σ).2).ret = 0 ∧
      (ModuleBase.init σ).1.read
        (ModuleBase.get_all_fans (ModuleBase.init σ).1 (ModuleBase.init σ).2).ret = []) ∧
    ((ModuleBase.get_num_psus (ModuleBase.init σ).1 (ModuleBase.init σ).2).ret = 0 ∧
      (ModuleBase.init σ).1.read
        (ModuleBase.get_all_psus (ModuleBase.init σ).1 (ModuleBase.init σ).2).ret = []) ∧
    ((ModuleBase.get_num_thermals (ModuleBase.init σ).1 (ModuleBase.init σ).2).ret = 0 ∧
      (ModuleBase.init σ).1.read
        (ModuleBase.get_all_thermals (ModuleBase.init σ).1 (ModuleBase.init σ).2).ret = []) ∧
    ((ModuleBase.get_num_sfps (ModuleBase.init σ).1 (ModuleBase.init σ).2).ret = 0 ∧
      (ModuleBase.init σ).1.read
        (ModuleBase.get_all_sfps (ModuleBase.init σ).1 (ModuleBase.init σ).2).ret = []) := by
  refine ⟨⟨?_, ?_⟩, ⟨?_, ?_⟩, ⟨?_, ?_⟩, ⟨?_, ?_⟩, ⟨?_, ?_⟩⟩
  · show ((ModuleBase.init σ).1.read (ModuleBase.init σ).2._component_list).length = 0
    rw [init_read_component]; rfl
  · exact init_read_component σ
  · show ((ModuleBase.init σ).1.read (ModuleBase.init σ).2._fan_list).length = 0
    rw [init_read_fan]; rfl
  · exact init_read_fan σ
  · show ((ModuleBase.init σ).1.read (ModuleBase.init σ).2._psu_list).length = 0
    rw [init_read_psu]; rfl
  · exact init_read_psu σ
  · show ((ModuleBase.init σ).1.read (ModuleBase.init σ).2._thermal_list).length = 0
    rw [init_read_thermal]; rfl
  · exact init_read_thermal σ
  · show ((ModuleBase.init σ).1.read (ModuleBase.init σ).2._sfp_list).length = 0
    rw [init_read_sfp]; rfl
  · exact init_read_sfp σ

/-- C6: the module-type constants are exactly "SUPERVISOR", "LINE-CARD",
"FABRIC-CARD" and the status constants are exactly "Empty", "Offline",
"Present", "Fault", "Online". -/
theorem C6_enumeration_constants :
    ModuleBase.MODULE_TYPE_SUPERVISOR = "SUPERVISOR" ∧
    ModuleBase.MODULE_TYPE_LINE = "LINE-CARD" ∧
    ModuleBase.MODULE_TYPE_FABRIC = "FABRIC-CARD" ∧
    ModuleBase.MODULE_STATUS_EMPTY = "Empty" ∧
    ModuleBase.MODULE_STATUS_OFFLINE = "Offline" ∧
    ModuleBase.MODULE_STATUS_PRESENT = "Present" ∧
    ModuleBase.MODULE_STATUS_FAULT = "Fault" ∧
    ModuleBase.MODULE_STATUS_ONLINE = "Online" :=
  ⟨rfl, rfl, rfl, rfl, rfl, rfl, rfl, rfl⟩

/-- C10: for each of the five sub-device kinds and in every module state,
get_num_<kind>s() equals the length of the sequence returned by
get_all_<kind>s(). -/
theorem C10_num_eq_all_length {α : Type} (σ : Heap α) (m : ModuleBase) :
    (ModuleBase.get_num_components σ m).ret =
      (σ.read (ModuleBase.get_all_components σ m).ret).length ∧
    (ModuleBase.get_num_fans σ m).ret =
      (σ.read (ModuleBase.get_all_fans σ m).ret).length ∧
    (ModuleBase.get_num_psus σ m).ret =
      (σ.read (ModuleBase.get_all_psus σ m).ret).length ∧
    (ModuleBase.get_num_thermals σ m).ret =
      (σ.read (ModuleBase.get_all_thermals σ m).ret).length ∧
    (ModuleBase.get_num_sfps σ m).ret =
      (σ.read (ModuleBase.get_all_sfps σ m).ret).length :=
  ⟨rfl, rfl, rfl, rfl, rfl⟩

/-- C7: get_all_<kind>s returns the module's owned collection itself (the
very reference stored in the instance, not a copy), so a later in-place
mutation of that list object by the owning implementation is visible when
reading through the previously returned reference. -/
theorem C7_get_all_returns_backing_sequence {α : Type} (σ : Heap α)
    (m : ModuleBase) (l' : List α) :
    ((ModuleBase.get_all_components σ m).ret = m._component_list ∧
      (m._component_list < σ.cells.length →
        (σ.write m._component_list l').read
          (ModuleBase.get_all_components σ m).ret = l')) ∧
    ((ModuleBase.get_all_fans σ m).ret = m._fan_list ∧
      (m._fan_list < σ.cells.length →
        (σ.write m._fan_list l').read (ModuleBase.get_all_fans σ m).ret = l')) ∧
    ((ModuleBase.get_all_psus σ m).ret = m._psu_list ∧
      (m._psu_list < σ.cells.length →
        (σ.write m._psu_list l').read (ModuleBase.get_all_psus σ m).ret = l')) ∧
    ((ModuleBase.get_all_thermals σ m).ret = m._thermal_list ∧
      (m._thermal_list < σ.cells.length →
        (σ.write m._thermal_list l').read
          (ModuleBase.get_all_thermals σ m).ret = l')) ∧
    ((ModuleBase.get_all_sfps σ m).ret = m._sfp_list ∧
      (m._sfp_list < σ.cells.length →
        (σ.write m._sfp_list l').read (ModuleBase.get_all_sfps σ m).ret = l')) :=
  ⟨⟨rfl, fun h => Heap.read_write_self σ _ l' h⟩,
   ⟨rfl, fun h => Heap.read_write_self σ _ l' h⟩,
   ⟨rfl, fun h => Heap.read_write_self σ _ l' h⟩,
   ⟨rfl, fun h => Heap.read_write_self σ _ l' h⟩,
   ⟨rfl, fun h => Heap.read_write_self σ _ l' h⟩⟩

/-- C7 witness: on the concrete example module, overwriting the fan list
object with [99] is visible through the reference get_all_fans returned
before the write. -/
theorem C7_witness :
    (exHeap.write exMod._fan_list [99]).read
      (ModuleBase.get_all_fans exHeap exMod).ret = [99] :=
  ((C7_get_all_returns_backing_sequence exHeap exMod [99]).2.1).2 (by decide)

/-- C9: every collection accessor (get_num_<kind>s, get_all_<kind>s, and
get_<kind> at any integer index, in range or not) leaves the heap and every
field of the instance unchanged; in particular the out-of-range diagnostic
branch does not modify the state. -/
theorem C9_accessors_preserve_state {α : Type} (σ : Heap α) (m : ModuleBase)
    (i : Int) :
    ((ModuleBase.get_num_components σ m).heap = σ ∧
      (ModuleBase.get_num_components σ m).mod = m) ∧
    ((ModuleBase.get_all_components σ m).heap = σ ∧
      (ModuleBase.get_all_components σ m).mod = m) ∧
    ((ModuleBase.get_component σ m i).heap = σ ∧
      (ModuleBase.get_component σ m i).mod = m) ∧
    ((ModuleBase.get_num_fans σ m).heap = σ ∧
      (ModuleBase.get_num_fans σ m).mod = m) ∧
    ((ModuleBase.get_all_fans σ m).heap = σ ∧
      (ModuleBase.get_all_fans σ m).mod = m) ∧
    ((ModuleBase.get_fan σ m i).heap = σ ∧ (ModuleBase.get_fan σ m i).mod = m) ∧
    ((ModuleBase.get_num_psus σ m).heap = σ ∧
      (ModuleBase.get_num_psus σ m).mod = m) ∧
    ((ModuleBase.get_all_psus σ m).heap = σ ∧
      (ModuleBase.get_all_psus σ m).mod = m) ∧
    ((ModuleBase.get_psu σ m i).heap = σ ∧ (ModuleBase.get_psu σ m i).mod = m) ∧
    ((ModuleBase.get_num_thermals σ m).heap = σ ∧
      (ModuleBase.get_num_thermals σ m).mod = m) ∧
    ((ModuleBase.get_all_thermals σ m).heap = σ ∧
      (ModuleBase.get_all_thermals σ m).mod = m) ∧
    ((ModuleBase.get_thermal σ m i).heap = σ ∧
      (ModuleBase.get_thermal σ m i).mod = m) ∧
    ((ModuleBase.get_num_sfps σ m).heap = σ ∧
      (ModuleBase.get_num_sfps σ m).mod = m) ∧
    ((ModuleBase.get_all_sfps σ m).heap = σ ∧
      (ModuleBase.get_all_sfps σ m).mod = m) ∧
    ((ModuleBase.get_sfp σ m i).heap = σ ∧ (ModuleBase.get_sfp σ m i).mod = m) :=
  ⟨⟨rfl, rfl⟩, ⟨rfl, rfl⟩, get_component_frame σ m i,
   ⟨rfl, rfl⟩, ⟨rfl, rfl⟩, get_fan_frame σ m i,
   ⟨rfl, rfl⟩, ⟨rfl, rfl⟩, get_psu_frame σ m i,
   ⟨rfl, rfl⟩, ⟨rfl, rfl⟩, get_thermal_frame σ m i,
   ⟨rfl, rfl⟩, ⟨rfl, rfl⟩, get_sfp_frame σ m i⟩

/-- C1 counterexample: on the example module with 3 fans, get_fan(-1) has
index -1 < 0 yet returns fan 22 and writes nothing to stderr, because Python
resolves the negative index from the end before any IndexError can occur; so
"i < 0 implies absent value and one diagnostic" is false as stated. -/
theorem C1_counterexample :
    (-1 : Int) < 0 ∧
    ¬ ((ModuleBase.get_fan exHeap exMod (-1)).ret = Except.ok none ∧
       (ModuleBase.get_fan exHeap exMod (-1)).stderr.length = 1) := by
  decide

/-- C1 (amended): for each of the five sub-device kinds and every integer i
with i < -get_num_<kind>s() or i >= get_num_<kind>s(), get_<kind>(i) returns
an absent value (None), emits exactly one diagnostic message to stderr, and
no exception escapes (the return is a normal value, not a raise). -/
theorem C1_out_of_range_returns_absent {α : Type} (σ : Heap α)
    (m : ModuleBase) (i : Int) :
    ((i < -((ModuleBase.get_num_components σ m).ret : Int) ∨
        ((ModuleBase.get_num_components σ m).ret : Int) ≤ i) →
      (ModuleBase.get_component σ m i).ret = Except.ok none ∧
      (ModuleBase.get_component σ m i).stderr.length = 1) ∧
    ((i < -((ModuleBase.get_num_fans σ m).ret : Int) ∨
        ((ModuleBase.get_num_fans σ m).ret : Int) ≤ i) →
      (ModuleBase.get_fan σ m i).ret = Except.ok none ∧
      (ModuleBase.get_fan σ m i).stderr.length = 1) ∧
    ((i < -((ModuleBase.get_num_psus σ m).ret : Int) ∨
        ((ModuleBase.get_num_psus σ m).ret : Int) ≤ i) →
      (ModuleBase.get_psu σ m i).ret = Except.ok none ∧
      (ModuleBase.get_psu σ m i).stderr.length = 1) ∧
    ((i < -((ModuleBase.get_num_thermals σ m).ret : Int) ∨
        ((ModuleBase.get_num_thermals σ m).ret : Int) ≤ i) →
      (ModuleBase.get_thermal σ m i).ret = Except.ok none ∧
      (ModuleBase.get_thermal σ m i).stderr.length = 1) ∧
    ((i < -((ModuleBase.get_num_sfps σ m).ret : Int) ∨
        ((ModuleBase.get_num_sfps σ m).ret : Int) ≤ i) →
      (ModuleBase.get_sfp σ m i).ret = Except.ok none ∧
      (ModuleBase.get_sfp σ m i).stderr.length = 1) := by
  refine ⟨?_, ?_, ?_, ?_, ?_⟩
  · intro h
    have h' : i < -(((σ.read m._component_list).length : Int)) ∨
        ((σ.read m._component_list).length : Int) ≤ i := by
      simpa [ModuleBase.get_num_components] using h
    have hg := pyListGet_eq_none (σ.read m._component_list) i h'
    exact ⟨by simp [ModuleBase.get_component, hg],
           by simp [ModuleBase.get_component, hg]⟩
  · intro h
    have h' : i < -(((σ.read m._fan_list).length : Int)) ∨
        ((σ.read m._fan_list).length : Int) ≤ i := by
      simpa [ModuleBase.get_num_fans] using h
    have hg := pyListGet_eq_none (σ.read m._fan_list) i h'
    exact ⟨by simp [ModuleBase.get_fan, hg], by simp [ModuleBase.get_fan, hg]⟩
  · intro h
    have h' : i < -(((σ.read m._psu_list).length : Int)) ∨
        ((σ.read m._psu_list).length : Int) ≤ i := by
      simpa [ModuleBase.get_num_psus] using h
    have hg := pyListGet_eq_none (σ.read m._psu_list) i h'
    exact ⟨by simp [ModuleBase.get_psu, hg], by simp [ModuleBase.get_psu, hg]⟩
  · intro h
    have h' : i < -(((σ.read m._thermal_list).length : Int)) ∨
        ((σ.read m._thermal_list).length : Int) ≤ i := by
      simpa [ModuleBase.get_num_thermals] using h
    have hg := pyListGet_eq_none (σ.read m._thermal_list) i h'
    exact ⟨by simp [ModuleBase.get_thermal, hg],
           by simp [ModuleBase.get_thermal, hg]⟩
  · intro h
    have h' : i < -(((σ.read m._sfp_list).length : Int)) ∨
        ((σ.read m._sfp_list).length : Int) ≤ i := by
      simpa [ModuleBase.get_num_sfps] using h
    have hg := pyListGet_eq_none (σ.read m._sfp_list) i h'
    exact ⟨by simp [ModuleBase.get_sfp, hg], by simp [ModuleBase.get_sfp, hg]⟩

/-- C1 witness: on the example module with 3 fans, get_fan(10) returns None
and writes exactly one diagnostic. -/
theorem C1_witness :
    (ModuleBase.get_fan exHeap exMod 10).ret = Except.ok none ∧
    (ModuleBase.get_fan exHeap exMod 10).stderr.length = 1 :=
  (C1_out_of_range_returns_absent exHeap exMod 10).2.1 (by decide)

/-- C3: for each of the five sub-device kinds and every valid index
0 <= i < get_num_<kind>s(), get_<kind>(i) returns exactly the i-th element
of the sequence get_all_<kind>s() denotes, and emits no diagnostic. -/
theorem C3_valid_index_returns_element {α : Type} (σ : Heap α)
    (m : ModuleBase) (i : Int) (h0 : 0 ≤ i) :
    (i < ((ModuleBase.get_num_components σ m).ret : Int) →
      (ModuleBase.get_component σ m i).ret =
        Except.ok ((σ.read (ModuleBase.get_all_components σ m).ret).get? i.toNat) ∧
      ((σ.read (ModuleBase.get_all_components σ m).ret).get? i.toNat).isSome ∧
      (ModuleBase.get_component σ m i).stderr = []) ∧
    (i < ((ModuleBase.get_num_fans σ m).ret : Int) →
      (ModuleBase.get_fan σ m i).ret =
        Except.ok ((σ.read (ModuleBase.get_all_fans σ m).ret).get? i.toNat) ∧
      ((σ.read (ModuleBase.get_all_fans σ m).ret).get? i.toNat).isSome ∧
      (ModuleBase.get_fan σ m i).stderr = []) ∧
    (i < ((ModuleBase.get_num_psus σ m).ret : Int) →
      (ModuleBase.get_psu σ m i).ret =
        Except.ok ((σ.read (ModuleBase.get_all_psus σ m).ret).get? i.toNat) ∧
      ((σ.read (ModuleBase.get_all_psus σ m).ret).get? i.toNat).isSome ∧
      (ModuleBase.get_psu σ m i).stderr = []) ∧
    (i < ((ModuleBase.get_num_thermals σ m).ret : Int) →
      (ModuleBase.get_thermal σ m i).ret =
        Except.ok ((σ.read (ModuleBase.get_all_thermals σ m).ret).get? i.toNat) ∧
      ((σ.read (ModuleBase.get_all_thermals σ m).ret).get? i.toNat).isSome ∧
      (ModuleBase.get_thermal σ m i).stderr = []) ∧
    (i < ((ModuleBase.get_num_sfps σ m).ret : Int) →
      (ModuleBase.get_sfp σ m i).ret =
        Except.ok ((σ.read (ModuleBase.get_all_sfps σ m).ret).get? i.toNat) ∧
      ((σ.read (ModuleBase.get_all_sfps σ m).ret).get? i.toNat).isSome ∧
      (ModuleBase.get_sfp σ m i).stderr = []) := by
  refine ⟨?_, ?_, ?_, ?_, ?_⟩
  · intro h1
    have h1' : i.toNat < (σ.read m._component_list).length := by
      simp [ModuleBase.get_num_components] at h1; omega
    have hg := pyListGet_of_nonneg (σ.read m._component_list) i h0
    obtain ⟨x, hx⟩ := Option.isSome_iff_exists.mp (get?_isSome_of_lt _ _ h1')
    simp only [List.get?_eq_getElem?] at hx
    refine ⟨?_, ?_, ?_⟩ <;>
      simp [ModuleBase.get_component, ModuleBase.get_all_components, hg, hx]
  · intro h1
    have h1' : i.toNat < (σ.read m._fan_list).length := by
      simp [ModuleBase.get_num_fans] at h1; omega
    have hg := pyListGet_of_nonneg (σ.read m._fan_list) i h0
    obtain ⟨x, hx⟩ := Option.isSome_iff_exists.mp (get?_isSome_of_lt _ _ h1')
    simp only [List.get?_eq_getElem?] at hx
    refine ⟨?_, ?_, ?_⟩ <;>
      simp [ModuleBase.get_fan, ModuleBase.get_all_fans, hg, hx]
  · intro h1
    have h1' : i.toNat < (σ.read m._psu_list).length := by
      simp [ModuleBase.get_num_psus] at h1; omega
    have hg := pyListGet_of_nonneg (σ.read m._psu_list) i h0
    obtain ⟨x, hx⟩ := Option.isSome_iff_exists.mp (get?_isSome_of_lt _ _ h1')
    simp only [List.get?_eq_getElem?] at hx
    refine ⟨?_, ?_, ?_⟩ <;>
      simp [ModuleBase.get_psu, ModuleBase.get_all_psus, hg, hx]
  · intro h1
    have h1' : i.toNat < (σ.read m._thermal_list).length := by
      simp [ModuleBase.get_num_thermals] at h1; omega
    have hg := pyListGet_of_nonneg (σ.read m._thermal_list) i h0
    obtain ⟨x, hx⟩ := Option.isSome_iff_exists.mp (get?_isSome_of_lt _ _ h1')
    simp only [List.get?_eq_getElem?] at hx
    refine ⟨?_, ?_, ?_⟩ <;>
      simp [ModuleBase.get_thermal, ModuleBase.get_all_thermals, hg, hx]
  · intro h1
    have h1' : i.toNat < (σ.read m._sfp_list).length := by
      simp [ModuleBase.get_num_sfps] at h1; omega
    have hg := pyListGet_of_nonneg (σ.read m._sfp_list) i h0
    obtain ⟨x, hx⟩ := Option.isSome_iff_exists.mp (get?_isSome_of_lt _ _ h1')
    simp only [List.get?_eq_getElem?] at hx
    refine ⟨?_, ?_, ?_⟩ <;>
      simp [ModuleBase.get_sfp, ModuleBase.get_all_sfps, hg, hx]

/-- C3 witness: on the example module, get_fan(0) returns the 0-th element
(fan 20) of the fan collection. -/
theorem C3_witness : (ModuleBase.get_fan exHeap exMod 0).ret = Except.ok (some 20) :=
  ((((C3_valid_index_returns_element exHeap exMod 0 (by decide)).2.1)
    (by decide)).1).trans (by rfl)

/-- C4 counterexample: on the example module with one thermal, the call
get_thermal(-1) has index -1 < 0 yet writes no diagnostic at all, so "every
call with i < 0 or i >= size writes the out-of-range line" is false as
stated. -/
theorem C4_counterexample :
    (-1 : Int) < 0 ∧
    (ModuleBase.get_thermal exHeap exMod (-1)).stderr = [] ∧
    ¬ ((ModuleBase.get_thermal exHeap exMod (-1)).stderr =
        ["THERMAL index -1 out of range (0-0)\n"]) := by
  decide

/-- C4 (amended): for each of the five sub-device kinds, every call
get_<kind>(i) with i < -size or i >= size writes exactly one diagnostic line
"<Kind> index {i} out of range (0-{size-1})" with the kind-specific tags
Component, Fan, PSU, THERMAL, SFP. -/
theorem C4_out_of_range_message {α : Type} (σ : Heap α) (m : ModuleBase)
    (i : Int) :
    ((i < -((ModuleBase.get_num_components σ m).ret : Int) ∨
        ((ModuleBase.get_num_components σ m).ret : Int) ≤ i) →
      (ModuleBase.get_component σ m i).stderr =
        ["Component index " ++ toString i ++ " out of range (0-" ++
         toString (((ModuleBase.get_num_components σ m).ret : Int) - 1) ++ ")\n"]) ∧
    ((i < -((ModuleBase.get_num_fans σ m).ret : Int) ∨
        ((ModuleBase.get_num_fans σ m).ret : Int) ≤ i) →
      (ModuleBase.get_fan σ m i).stderr =
        ["Fan index " ++ toString i ++ " out of range (0-" ++
         toString (((ModuleBase.get_num_fans σ m).ret : Int) - 1) ++ ")\n"]) ∧
    ((i < -((ModuleBase.get_num_psus σ m).ret : Int) ∨
        ((ModuleBase.get_num_psus σ m).ret : Int) ≤ i) →
      (ModuleBase.get_psu σ m i).stderr =
        ["PSU index " ++ toString i ++ " out of range (0-" ++
         toString (((ModuleBase.get_num_psus σ m).ret : Int) - 1) ++ ")\n"]) ∧
    ((i < -((ModuleBase.get_num_thermals σ m).ret : Int) ∨
        ((ModuleBase.get_num_thermals σ m).ret : Int) ≤ i) →
      (ModuleBase.get_thermal σ m i).stderr =
        ["THERMAL index " ++ toString i ++ " out of range (0-" ++
         toString (((ModuleBase.get_num_thermals σ m).ret : Int) - 1) ++ ")\n"]) ∧
    ((i < -((ModuleBase.get_num_sfps σ m).ret : Int) ∨
        ((ModuleBase.get_num_sfps σ m).ret : Int) ≤ i) →
      (ModuleBase.get_sfp σ m i).stderr =
        ["SFP index " ++ toString i ++ " out of range (0-" ++
         toString (((ModuleBase.get_num_sfps σ m).ret : Int) - 1) ++ ")\n"]) := by
  refine ⟨?_, ?_, ?_, ?_, ?_⟩
  · intro h
    have h' : i < -(((σ.read m._component_list).length : Int)) ∨
        ((σ.read m._component_list).length : Int) ≤ i := by
      simpa [ModuleBase.get_num_components] using h
    have hg := pyListGet_eq_none (σ.read m._component_list) i h'
    simp [ModuleBase.get_component, ModuleBase.get_num_components, hg]
  · intro h
    have h' : i < -(((σ.read m._fan_list).length : Int)) ∨
        ((σ.read m._fan_list).length : Int) ≤ i := by
      simpa [ModuleBase.get_num_fans] using h
    have hg := pyListGet_eq_none (σ.read m._fan_list) i h'
    simp [ModuleBase.get_fan, ModuleBase.get_num_fans, hg]
  · intro h
    have h' : i < -(((σ.read m._psu_list).length : Int)) ∨
        ((σ.read m._psu_list).length : Int) ≤ i := by
      simpa [ModuleBase.get_num_psus] using h
    have hg := pyListGet_eq_none (σ.read m._psu_list) i h'
    simp [ModuleBase.get_psu, ModuleBase.get_num_psus, hg]
  · intro h
    have h' : i < -(((σ.read m._thermal_list).length : Int)) ∨
        ((σ.read m._thermal_list).length : Int) ≤ i := by
      simpa [ModuleBase.get_num_thermals] using h
    have hg := pyListGet_eq_none (σ.read m._thermal_list) i h'
    simp [ModuleBase.get_thermal, ModuleBase.get_num_thermals, hg]
  · intro h
    have h' : i < -(((σ.read m._sfp_list).length : Int)) ∨
        ((σ.read m._sfp_list).length : Int) ≤ i := by
      simpa [ModuleBase.get_num_sfps] using h
    have hg := pyListGet_eq_none (σ.read m._sfp_list) i h'
    simp [ModuleBase.get_sfp, ModuleBase.get_num_sfps, hg]

/-- C4 witness (the spec's scenario): on the example module with 3 fans,
get_fan(3) writes exactly the line "Fan index 3 out of range (0-2)". -/
theorem C4_witness :
    (ModuleBase.get_fan exHeap exMod 3).stderr =
      ["Fan index 3 out of range (0-2)\n"] :=
  ((C4_out_of_range_message exHeap exMod 3).2.1 (by decide)).trans (by rfl)

/-- C8: for each of the five sub-device kinds, on a collection of size
n >= k >= 1, get_<kind>(-k) returns the element at position n - k of the
collection and emits no diagnostic (Python negative-index semantics). -/
theorem C8_negative_index_reaches_element {α : Type} (σ : Heap α)
    (m : ModuleBase) (k : Nat) (h1 : 1 ≤ k) :
    ((k ≤ (ModuleBase.get_num_components σ m).ret →
      (ModuleBase.get_component σ m (-(k : Int))).ret =
        Except.ok ((σ.read (ModuleBase.get_all_components σ m).ret).get?
          ((ModuleBase.get_num_components σ m).ret - k)) ∧
      ((σ.read (ModuleBase.get_all_components σ m).ret).get?
          ((ModuleBase.get_num_components σ m).ret - k)).isSome ∧
      (ModuleBase.get_component σ m (-(k : Int))).stderr = [])) ∧
    ((k ≤ (ModuleBase.get_num_fans σ m).ret →
      (ModuleBase.get_fan σ m (-(k : Int))).ret =
        Except.ok ((σ.read (ModuleBase.get_all_fans σ m).ret).get?
          ((ModuleBase.get_num_fans σ m).ret - k)) ∧
      ((σ.read (ModuleBase.get_all_fans σ m).ret).get?
          ((ModuleBase.get_num_fans σ m).ret - k)).isSome ∧
      (ModuleBase.get_fan σ m (-(k : Int))).stderr = [])) ∧
    ((k ≤ (ModuleBase.get_num_psus σ m).ret →
      (ModuleBase.get_psu σ m (-(k : Int))).ret =
        Except.ok ((σ.read (ModuleBase.get_all_psus σ m).ret).get?
          ((ModuleBase.get_num_psus σ m).ret - k)) ∧
      ((σ.read (ModuleBase.get_all_psus σ m).ret).get?
          ((ModuleBase.get_num_psus σ m).ret - k)).isSome ∧
      (ModuleBase.get_psu σ m (-(k : Int))).stderr = [])) ∧
    ((k ≤ (ModuleBase.get_num_thermals σ m).ret →
      (ModuleBase.get_thermal σ m (-(k : Int))).ret =
        Except.ok ((σ.read (ModuleBase.get_all_thermals σ m).ret).get?
          ((ModuleBase.get_num_thermals σ m).ret - k)) ∧
      ((σ.read (ModuleBase.get_all_thermals σ m).ret).get?
          ((ModuleBase.get_num_thermals σ m).ret - k)).isSome ∧
      (ModuleBase.get_thermal σ m (-(k : Int))).stderr = [])) ∧
    ((k ≤ (ModuleBase.get_num_sfps σ m).ret →
      (ModuleBase.get_sfp σ m (-(k : Int))).ret =
        Except.ok ((σ.read (ModuleBase.get_all_sfps σ m).ret).get?
          ((ModuleBase.get_num_sfps σ m).ret - k)) ∧
      ((σ.read (ModuleBase.get_all_sfps σ m).ret).get?
          ((ModuleBase.get_num_sfps σ m).ret - k)).isSome ∧
      (ModuleBase.get_sfp σ m (-(k : Int))).stderr = [])) := by
  refine ⟨?_, ?_, ?_, ?_, ?_⟩
  · intro h2
    have h2' : k ≤ (σ.read m._component_list).length := by
      simpa [ModuleBase.get_num_components] using h2
    have hg := pyListGet_neg (σ.read m._component_list) k h1 h2'
    have hlt : (σ.read m._component_list).length - k <
        (σ.read m._component_list).length := by omega
    obtain ⟨x, hx⟩ := Option.isSome_iff_exists.mp (get?_isSome_of_lt _ _ hlt)
    simp only [List.get?_eq_getElem?] at hx
    refine ⟨?_, ?_, ?_⟩ <;>
      simp [ModuleBase.get_component, ModuleBase.get_all_components,
            ModuleBase.get_num_components, hg, hx]
  · intro h2
    have h2' : k ≤ (σ.read m._fan_list).length := by
      simpa [ModuleBase.get_num_fans] using h2
    have hg := pyListGet_neg (σ.read m._fan_list) k h1 h2'
    have hlt : (σ.read m._fan_list).length - k <
        (σ.read m._fan_list).length := by omega
    obtain ⟨x, hx⟩ := Option.isSome_iff_exists.mp (get?_isSome_of_lt _ _ hlt)
    simp only [List.get?_eq_getElem?] at hx
    refine ⟨?_, ?_, ?_⟩ <;>
      simp [ModuleBase.get_fan, ModuleBase.get_all_fans,
            ModuleBase.get_num_fans, hg, hx]
  · intro h2
    have h2' : k ≤ (σ.read m._psu_list).length := by
      simpa [ModuleBase.get_num_psus] using h2
    have hg := pyListGet_neg (σ.read m._psu_list) k h1 h2'
    have hlt : (σ.read m._psu_list).length - k <
        (σ.read m._psu_list).length := by omega
    obtain ⟨x, hx⟩ := Option.isSome_iff_exists.mp (get?_isSome_of_lt _ _ hlt)
    simp only [List.get?_eq_getElem?] at hx
    refine ⟨?_, ?_, ?_⟩ <;>
      simp [ModuleBase.get_psu, ModuleBase.get_all_psus,
            ModuleBase.get_num_psus, hg, hx]
  · intro h2
    have h2' : k ≤ (σ.read m._thermal_list).length := by
      simpa [ModuleBase.get_num_thermals] using h2
    have hg := pyListGet_neg (σ.read m._thermal_list) k h1 h2'
    have hlt : (σ.read m._thermal_list).length - k <
        (σ.read m._thermal_list).length := by omega
    obtain ⟨x, hx⟩ := Option.isSome_iff_exists.mp (get?_isSome_of_lt _ _ hlt)
    simp only [List.get?_eq_getElem?] at hx
    refine ⟨?_, ?_, ?_⟩ <;>
      simp [ModuleBase.get_thermal, ModuleBase.get_all_thermals,
            ModuleBase.get_num_thermals, hg, hx]
  · intro h2
    have h2' : k ≤ (σ.read m._sfp_list).length := by
      simpa [ModuleBase.get_num_sfps] using h2
    have hg := pyListGet_neg (σ.read m._sfp_list) k h1 h2'
    have hlt : (σ.read m._sfp_list).length - k <
        (σ.read m._sfp_list).length := by omega
    obtain ⟨x, hx⟩ := Option.isSome_iff_exists.mp (get?_isSome_of_lt _ _ hlt)
    simp only [List.get?_eq_getElem?] at hx
    refine ⟨?_, ?_, ?_⟩ <;>
      simp [ModuleBase.get_sfp, ModuleBase.get_all_sfps,
            ModuleBase.get_num_sfps, hg, hx]

/-- C8 witness: on the example module whose sfp collection is
[50, 51, 52], get_sfp(-1) returns the last element 52. -/
theorem C8_witness : (ModuleBase.get_sfp exHeap exMod (-1)).ret = Except.ok (some 52) :=
  ((((C8_negative_index_reaches_element exHeap exMod 1 (by decide)).2.2.2.2)
    (by decide)).1).trans (by rfl)

end SonicPlatform
